import Mathlib

/-!
# Verification of the Entra directory client (`main.py`)

A shallow embedding of the `EntraClient` class and the MCP tool boundary of
`main.py`, together with theorems settling the frozen claims C1..C10 about it.

Modelling conventions:

* Python exceptions are modelled with `Except Err`, where `Err := String` is
  the exception's message (`str(e)`).
* A decoded Microsoft Graph JSON response is a `GraphResponse`: the `value`
  array (a list of records), the optional `@odata.count` hint and the optional
  `@odata.nextLink` continuation URL, exactly the three fields the client
  reads (each read uses `.get` with the default the code supplies, so a
  missing key and the supplied default coincide).
* The remote service (reached through `_make_request` / `_get_next_link`) is
  an explicit environment `Env : Request → Trace`: for each initial request it
  yields the outcome for the first page and the ordered outcomes for the
  continuation fetches that follow that request's `@odata.nextLink` chain.
  Authorization and Content-Type headers are attached uniformly by the opaque
  token/HTTP layer and carry no claim-relevant information, so a `Request`
  keeps only the endpoint, the query params and the extra headers the client
  chooses.
* Python string operations used by the client (`str.split()`, `str.strip()`,
  single-character `str.replace`) are given executable char-list models.
* Python truthiness matters twice and is modelled explicitly: `while next_link`
  treats both `None` and `""` as false (`truthyLink`), and
  `resolved or user_identifier` falls through on both `None` and `""`
  (`pyOrStr`).
* Limits are item counts; negative limits are outside the modelled domain, so
  `item_limit` is an `Option Nat`.
-/

namespace EntraMCP

/-- Exception payload: the message `str(e)` of a raised Python exception. -/
abbrev Err := String

/-- A directory record (user / group / member object): an opaque JSON object,
modelled as an association list of string fields. -/
abbrev Record := List (String × String)

/-- Python `d.get(key)` on a record: the value of the first matching field, or
`None` when the key is absent. -/
def recordGet (r : Record) (key : String) : Option String :=
  (r.find? (fun kv => kv.1 = key)).map (fun kv => kv.2)

/-- Equality on `Except` is decidable (needed to evaluate concrete runs). -/
def exceptDecEq {ε α : Type} [DecidableEq ε] [DecidableEq α] :
    (x y : Except ε α) → Decidable (x = y)
  | Except.ok a, Except.ok b =>
    if h : a = b then Decidable.isTrue (by rw [h]) else Decidable.isFalse (by simp [h])
  | Except.ok _, Except.error _ => Decidable.isFalse (by simp)
  | Except.error _, Except.ok _ => Decidable.isFalse (by simp)
  | Except.error e, Except.error f =>
    if h : e = f then Decidable.isTrue (by rw [h]) else Decidable.isFalse (by simp [h])

instance {ε α : Type} [DecidableEq ε] [DecidableEq α] : DecidableEq (Except ε α) :=
  exceptDecEq

/-! ## Python string primitives used by the client -/

/-- Worker for Python `str.split()`: scan the characters, emitting the
accumulated token at each whitespace run boundary. -/
def pySplitAux : List Char → List Char → List String
  | [], acc => if acc.isEmpty then [] else [String.mk acc.reverse]
  | c :: cs, acc =>
    if c.isWhitespace then
      if acc.isEmpty then pySplitAux cs [] else String.mk acc.reverse :: pySplitAux cs []
    else
      pySplitAux cs (c :: acc)

/-- Python `s.split()` (no separator argument): the maximal nonempty runs of
non-whitespace characters, in order. -/
def pySplitWs (s : String) : List String := pySplitAux s.data []

/-- Python `s.strip()`: drop leading and trailing whitespace. -/
def pyStrip (s : String) : String :=
  String.mk (((s.data.dropWhile Char.isWhitespace).reverse.dropWhile Char.isWhitespace).reverse)

/-- Python `s.replace(pat, rep)` for a single-character pattern (the only form
the client uses: `'` and `"`). -/
def pyReplace1 (s : String) (pat : Char) (rep : String) : String :=
  String.join (s.data.map (fun c => if c = pat then rep else String.singleton c))

/-- Python `x or dflt` for `x : Optional[str]`: both `None` and the empty
string are falsy and fall through to the default. -/
def pyOrStr (x : Option String) (dflt : String) : String :=
  match x with
  | none => dflt
  | some s => if s = "" then dflt else s

/-! ## Data model: responses, requests, the service environment -/

/-- The decoded JSON body of one Graph response, restricted to the three
fields the client reads: `value` (default `[]`), `@odata.count` (optional)
and `@odata.nextLink` (optional). -/
structure GraphResponse where
  value : List Record
  odata_count : Option Int
  odata_nextLink : Option String
deriving Repr, DecidableEq

/-- The dict returned by `_collect_paged`: it ALWAYS contains both keys
`value` and `count` (the latter possibly `None`). -/
structure PagedDict where
  value : List Record
  count : Option Int
deriving Repr, DecidableEq

/-- One request issued by the client through `_make_request`: endpoint, query
params, and the extra headers chosen by the caller (`ConsistencyLevel`).
Bearer token and Content-Type headers are attached by the opaque HTTP layer
and are not modelled. -/
structure Request where
  endpoint : String
  params : List (String × String)
  headers : List (String × String)
deriving Repr, DecidableEq

/-- The service's answer to one initial request: the outcome of the first
fetch, then the ordered outcomes of the fetches that follow the response's
`@odata.nextLink` chain (`_get_next_link`), one per followed link. -/
structure Trace where
  first : Except Err GraphResponse
  rest : List (Except Err GraphResponse)

/-- The remote service: what each initial request's page chain returns. -/
abbrev Env := Request → Trace

/-- Python truthiness of `next_link : Optional[str]` in `while next_link`:
`None` and `""` are falsy. -/
def truthyLink : Option String → Bool
  | none => false
  | some s => if s = "" then false else true

/-- The loop guard `item_limit is None or len(items) < item_limit`. -/
def underLimit (itemLimit : Option Nat) (count : Nat) : Bool :=
  match itemLimit with
  | none => true
  | some n => count < n

/-- Placeholder failure for ill-formed traces in which a continuation link is
followed but the trace supplies no response; a real service always answers a
followed link, so well-formed runs never produce this. -/
def noResponseErr : Err := "no continuation response available"

/-- The `while` loop of `_collect_paged`: while a truthy `next_link` exists
and the limit is not yet reached, fetch the next page, append its items and
replace the link.  Returns the accumulated items (pre-truncation) paired with
the number of continuation fetches performed. -/
def collectLoop (itemLimit : Option Nat) (rest : List (Except Err GraphResponse))
    (items : List Record) (nextLink : Option String) : Except Err (List Record × Nat) :=
  if truthyLink nextLink && underLimit itemLimit items.length then
    match rest with
    | [] => Except.error noResponseErr
    | Except.error e :: _ => Except.error e
    | Except.ok page :: rest' =>
      match collectLoop itemLimit rest' (items ++ page.value) page.odata_nextLink with
      | Except.ok pr => Except.ok (pr.1, pr.2 + 1)
      | Except.error e => Except.error e
  else
    Except.ok (items, 0)

/-- `EntraClient._collect_paged` (main.py lines 76-96): fetch the first page,
record the `@odata.count` hint from that page only, loop while a continuation
link exists and the limit is unreached, then truncate overshoot.  Any fetch
failure propagates as `Except.error`, discarding the accumulation. -/
def collect_paged (t : Trace) (item_limit : Option Nat) : Except Err PagedDict :=
  match t.first with
  | Except.error e => Except.error e
  | Except.ok first_page =>
    match collectLoop item_limit t.rest first_page.value first_page.odata_nextLink with
    | Except.error e => Except.error e
    | Except.ok pr =>
      let items := pr.1
      let items :=
        match item_limit with
        | some l => if items.length > l then items.take l else items
        | none => items
      Except.ok ⟨items, first_page.odata_count⟩

/-! ## Query builder -/

/-- `EntraClient._build_and_search_query` (main.py lines 98-104):
tokens = `[t.strip() for t in raw_query.split() if t.strip()]`; with no tokens
return the trimmed input in one pair of quotes, otherwise quote each token
(escaping internal `"` as `\"`) and join with `" AND "`. -/
def _build_and_search_query (raw_query : String) : String :=
  let tokens := (pySplitWs raw_query).filterMap (fun t =>
    let s := pyStrip t
    if s = "" then none else some s)
  if tokens = [] then "\"" ++ pyStrip raw_query ++ "\""
  else String.intercalate " AND "
    (tokens.map (fun t => "\"" ++ pyReplace1 t '"' "\\\"" ++ "\""))

/-- Modelled from the spec's words, for comparison with the source function:
split the input on whitespace dropping empty tokens; if zero tokens remain,
return the trimmed input wrapped in one pair of double quotes; otherwise wrap
each token in double quotes with internal quotes escaped as `\"` and join
with the literal `" AND "`. -/
def buildSearchExpressionSpecModel (raw : String) : String :=
  let toks := pySplitWs raw
  if toks = [] then "\"" ++ pyStrip raw ++ "\""
  else String.intercalate " AND "
    (toks.map (fun t => "\"" ++ pyReplace1 t '"' "\\\"" ++ "\""))

/-- The sanitization applied by both search operations before building any
query: `query.replace("'", "''").strip()`. -/
def pySanitize (query : String) : String :=
  pyStrip (pyReplace1 query '\x27' "\x27\x27")

/-! ## Directory client operations -/

/-- `$select` list for user search (main.py line 120). -/
def userSelectList : String :=
  "id,displayName,userPrincipalName,mail,jobTitle,department,officeLocation"

/-- `$select` list for group search and membership (main.py lines 157, 205). -/
def groupSelectList : String := "id,displayName,description,groupTypes,mail"

/-- `$select` list for group members (main.py line 218). -/
def memberSelectList : String := "id,displayName,userPrincipalName,mail,jobTitle,department"

/-- The `ConsistencyLevel: eventual` header used by search and membership. -/
def consistencyHeader : List (String × String) := [("ConsistencyLevel", "eventual")]

/-- The `$filter` fallback expression of `search_users` (main.py line 133). -/
def usersStartswithFilterExpr (sq : String) : String :=
  "startswith(displayName,\x27" ++ sq ++ "\x27) or startswith(mail,\x27" ++ sq ++
    "\x27) or startswith(userPrincipalName,\x27" ++ sq ++ "\x27)"

/-- The `$filter` fallback expression of `search_groups` (main.py line 169). -/
def groupsStartswithFilterExpr (sq : String) : String :=
  "startswith(displayName,\x27" ++ sq ++ "\x27) or startswith(description,\x27" ++ sq ++ "\x27)"

/-- The primary `$search` request of `search_users` (main.py lines 115-121). -/
def usersSearchRequest (query : String) (limit : Nat) : Request :=
  ⟨"/users",
   [("$search", _build_and_search_query (pySanitize query)), ("$count", "true"),
    ("$top", toString limit), ("$select", userSelectList)],
   consistencyHeader⟩

/-- The `$filter` fallback request of `search_users` (main.py lines 132-137). -/
def usersFilterRequest (query : String) (limit : Nat) : Request :=
  ⟨"/users",
   [("$filter", usersStartswithFilterExpr (pySanitize query)), ("$count", "true"),
    ("$top", toString limit), ("$select", userSelectList)],
   consistencyHeader⟩

/-- The primary `$search` request of `search_groups` (main.py lines 152-158). -/
def groupsSearchRequest (query : String) (limit : Nat) : Request :=
  ⟨"/groups",
   [("$search", _build_and_search_query (pySanitize query)), ("$count", "true"),
    ("$top", toString limit), ("$select", groupSelectList)],
   consistencyHeader⟩

/-- The `$filter` fallback request of `search_groups` (main.py lines 168-173). -/
def groupsFilterRequest (query : String) (limit : Nat) : Request :=
  ⟨"/groups",
   [("$filter", groupsStartswithFilterExpr (pySanitize query)), ("$count", "true"),
    ("$top", toString limit), ("$select", groupSelectList)],
   consistencyHeader⟩

/-- The dict returned by `search_users`: keys `users` and `total_count`; the
latter is `page.get("count", len(users))`, and since `_collect_paged`'s result
always contains the `count` key (possibly `None`), the stored optional value
is returned unchanged and the `len(users)` default is dead. -/
structure UsersResult where
  users : List Record
  total_count : Option Int
deriving Repr, DecidableEq

/-- The dict returned by `search_groups`: keys `groups` and `total_count`
(same dead-default remark as `UsersResult`). -/
structure GroupsResult where
  groups : List Record
  total_count : Option Int
deriving Repr, DecidableEq

/-- `EntraClient.search_users` (main.py lines 106-141): try the `$search`
request through `_collect_paged`; on ANY exception fall back to the
`startswith` `$filter` request with the same limit, select list and header;
a fallback failure propagates. -/
def search_users (env : Env) (query : String) (limit : Nat) : Except Err UsersResult :=
  match collect_paged (env (usersSearchRequest query limit)) (some limit) with
  | Except.ok page => Except.ok ⟨page.value, page.count⟩
  | Except.error _ =>
    match collect_paged (env (usersFilterRequest query limit)) (some limit) with
    | Except.ok page => Except.ok ⟨page.value, page.count⟩
    | Except.error e => Except.error e

/-- `EntraClient.search_groups` (main.py lines 143-177): same shape as
`search_users` with the groups endpoint, select list and filter fields. -/
def search_groups (env : Env) (query : String) (limit : Nat) : Except Err GroupsResult :=
  match collect_paged (env (groupsSearchRequest query limit)) (some limit) with
  | Except.ok page => Except.ok ⟨page.value, page.count⟩
  | Except.error _ =>
    match collect_paged (env (groupsFilterRequest query limit)) (some limit) with
    | Except.ok page => Except.ok ⟨page.value, page.count⟩
    | Except.error e => Except.error e

/-- The direct lookup request of `_resolve_user_id` (main.py line 183):
`GET /users/{identifier}` with no params and no extra headers. -/
def directUserRequest (identifier : String) : Request :=
  ⟨"/users/" ++ identifier, [], []⟩

/-- The mail-equality request of `_resolve_user_id` (main.py lines 190-191). -/
def mailFilterRequest (identifier : String) : Request :=
  ⟨"/users",
   [("$filter", "mail eq \x27" ++ identifier ++ "\x27"), ("$select", "id")],
   []⟩

/-- `EntraClient._resolve_user_id` (main.py lines 179-197): try the direct
path-segment lookup and return the INPUT identifier on success; on any
exception fall back to the mail-equality filter and return the first match's
`id` field; every exception is swallowed and misses return `none`. -/
def _resolve_user_id (env : Env) (identifier : String) : Option String :=
  match (env (directUserRequest identifier)).first with
  | Except.ok _ => some identifier
  | Except.error _ =>
    match (env (mailFilterRequest identifier)).first with
    | Except.error _ => none
    | Except.ok res =>
      match res.value with
      | [] => none
      | u :: _ => recordGet u "id"

/-- Query params of the membership request (main.py lines 204-208): fixed
page size `$top = 50`. -/
def membershipParams : List (String × String) :=
  [("$select", groupSelectList), ("$count", "true"), ("$top", toString 50)]

/-- The membership request of `get_user_membership` (main.py lines 203-209). -/
def memberOfRequest (user_id : String) : Request :=
  ⟨"/users/" ++ user_id ++ "/memberOf", membershipParams, consistencyHeader⟩

/-- `EntraClient.get_user_membership` (main.py lines 199-211): resolve the
identifier (`user_id = resolved or user_identifier`, Python truthiness), then
paginate `/users/{user_id}/memberOf` with the eventual-consistency header,
page size 50 and the optional overall limit. -/
def get_user_membership (env : Env) (user_identifier : String) (limit : Option Nat) :
    Except Err (List Record) :=
  let resolved := _resolve_user_id env user_identifier
  let user_id := pyOrStr resolved user_identifier
  match collect_paged (env (memberOfRequest user_id)) limit with
  | Except.ok page => Except.ok page.value
  | Except.error e => Except.error e

/-- The single request of `get_group_members` (main.py lines 215-219). -/
def groupMembersRequest (group_id : String) (limit : Nat) : Request :=
  ⟨"/groups/" ++ group_id ++ "/members",
   [("$top", toString limit), ("$select", memberSelectList)],
   []⟩

/-- `EntraClient.get_group_members` (main.py lines 213-221): a single
`_make_request` with `$top = limit`; returns that one page's `value` list and
never follows a continuation link. -/
def get_group_members (env : Env) (group_id : String) (limit : Nat) :
    Except Err (List Record) :=
  match (env (groupMembersRequest group_id limit)).first with
  | Except.ok response => Except.ok response.value
  | Except.error e => Except.error e

/-! ## The tool boundary (`search_entra_users`) -/

/-- JSON escaping of one character inside a string literal (quote and
backslash; other characters the tool serializes are printable ASCII). -/
def jsonEscapeChar (c : Char) : String :=
  if c = '"' then "\\\"" else if c = '\\' then "\\\\" else String.singleton c

/-- A JSON string literal. -/
def jsonStringLit (s : String) : String :=
  "\"" ++ String.join (s.data.map jsonEscapeChar) ++ "\""

/-- A record serialized as a JSON object. -/
def jsonRecordObj (r : Record) : String :=
  "\x7b" ++ String.intercalate ", "
    (r.map (fun kv => jsonStringLit kv.1 ++ ": " ++ jsonStringLit kv.2)) ++ "\x7d"

/-- A record list serialized as a JSON array. -/
def jsonRecordArray (rs : List Record) : String :=
  "[" ++ String.intercalate ", " (rs.map jsonRecordObj) ++ "]"

/-- The serialized success envelope of the user-search tool:
`json.dumps({"query": ..., "total_results": ..., "users": ...}, indent=2)`,
modelled up to insignificant whitespace (the `indent=2` pretty-printing). -/
def usersEnvelopeJson (query : String) (total_results : Int) (users : List Record) : String :=
  "\x7b\"query\": " ++ jsonStringLit query ++ ", \"total_results\": " ++
    toString total_results ++ ", \"users\": " ++ jsonRecordArray users ++ "\x7d"

/-- The message of the `TypeError` raised by `int(None)` in the tool body when
`total_count` is `None`. -/
def intNoneTypeErrMsg : String :=
  "int() argument must be a string, a bytes-like object or a real number, not \x27NoneType\x27"

/-- The `search_entra_users` tool (main.py lines 253-281): call the client
inside `try`; build `{"query", "total_results": int(total_count), "users"}`
and serialize it; any exception caught at the boundary (a client failure, or
the `int(None)` `TypeError` when the reported count is `None`) is converted
to the plain string `"Error searching users: <message>"`. -/
def search_entra_users (env : Env) (query : String) (max_results : Nat) : String :=
  match search_users env query max_results with
  | Except.error e => "Error searching users: " ++ e
  | Except.ok r =>
    match r.total_count with
    | some n => usersEnvelopeJson query n r.users
    | none => "Error searching users: " ++ intNoneTypeErrMsg

/-! ## Well-formed page chains (for quantified pagination statements) -/

/-- `chainLinked p ps` holds when page `p` followed by pages `ps` form a
well-formed continuation chain: every page but the last carries a truthy
`@odata.nextLink` and the last carries none. -/
def chainLinked : GraphResponse → List GraphResponse → Bool
  | p, [] => !(truthyLink p.odata_nextLink)
  | p, q :: qs => truthyLink p.odata_nextLink && chainLinked q qs

/-! ## Concrete data for witnesses and counterexamples -/

/-- Distinct sample records `u1` .. `u9`. -/
def rec1 : Record := [("id", "u1")]

def rec2 : Record := [("id", "u2")]

def rec3 : Record := [("id", "u3")]

def rec4 : Record := [("id", "u4")]

def rec5 : Record := [("id", "u5")]

def rec6 : Record := [("id", "u6")]

def rec7 : Record := [("id", "u7")]

def rec8 : Record := [("id", "u8")]

def rec9 : Record := [("id", "u9")]

/-- Page 1 of the three-page scenario: 3 items, count hint 9, link present. -/
def pageA : GraphResponse := ⟨[rec1, rec2, rec3], some 9, some "next1"⟩

/-- Page 2 of the three-page scenario: 3 items, link present. -/
def pageB : GraphResponse := ⟨[rec4, rec5, rec6], none, some "next2"⟩

/-- Page 3 of the three-page scenario: 3 items, no link. -/
def pageC : GraphResponse := ⟨[rec7, rec8, rec9], none, none⟩

/-- The three-page trace with sizes [3,3,3]. -/
def traceC2 : Trace := ⟨Except.ok pageA, [Except.ok pageB, Except.ok pageC]⟩

/-- A service on which every `$search` request fails and every other request
returns one page with one user and count hint 1. -/
def envFallbackOk : Env := fun r =>
  if r.params.any (fun kv => kv.1 = "$search") then
    ⟨Except.error "Request_UnsupportedQuery", []⟩
  else
    ⟨Except.ok ⟨[rec1], some 1, none⟩, []⟩

/-- A service on which every request fails with message `boom`. -/
def envAllFail : Env := fun _ => ⟨Except.error "boom", []⟩

/-- A service answering every request with one page that carries a count
hint (25). -/
def envCountHint : Env := fun _ => ⟨Except.ok ⟨[rec1], some 25, none⟩, []⟩

/-- A service answering every request with one two-item page that carries NO
`@odata.count` hint. -/
def envNoCountHint : Env := fun _ => ⟨Except.ok ⟨[rec1, rec2], none, none⟩, []⟩

/-- Sample group records used by the membership scenarios. -/
def gU42 : Record := [("id", "g-of-u42")]

def gViaRaw : Record := [("id", "g-via-raw-identifier")]

def gViaEmpty : Record := [("id", "g-via-empty-id")]

/-- The spec's end-to-end scenario: direct lookup of `jane@co.com` fails, the
mail filter resolves to id `u42`, and `/users/u42/memberOf` has one group. -/
def envJane : Env := fun r =>
  if r = directUserRequest "jane@co.com" then ⟨Except.error "404 Not Found", []⟩
  else if r = mailFilterRequest "jane@co.com" then
    ⟨Except.ok ⟨[[("id", "u42")]], none, none⟩, []⟩
  else if r = memberOfRequest "u42" then ⟨Except.ok ⟨[gU42], some 1, none⟩, []⟩
  else ⟨Except.error "unexpected request", []⟩

/-- A service on which the mail filter resolves `jane@co.com` to the EMPTY
string id; the raw-identifier membership endpoint and the empty-id membership
endpoint answer with different groups, making the endpoint choice observable. -/
def envEmptyIdResolve : Env := fun r =>
  if r = directUserRequest "jane@co.com" then ⟨Except.error "404 Not Found", []⟩
  else if r = mailFilterRequest "jane@co.com" then
    ⟨Except.ok ⟨[[("id", "")]], none, none⟩, []⟩
  else if r = memberOfRequest "jane@co.com" then ⟨Except.ok ⟨[gViaRaw], none, none⟩, []⟩
  else if r = memberOfRequest "" then ⟨Except.ok ⟨[gViaEmpty], none, none⟩, []⟩
  else ⟨Except.error "unexpected request", []⟩

/-- A service on which the direct lookup of `john.doe@co.com` succeeds and the
fetched record's canonical object id differs from the identifier. -/
def envDirectHit : Env := fun r =>
  if r = directUserRequest "john.doe@co.com" then
    ⟨Except.ok ⟨[[("id", "11111111-2222")]], none, none⟩, []⟩
  else ⟨Except.error "unexpected request", []⟩

/-- A service where both resolution lookups fail with an exception. -/
def envBothFail : Env := fun _ => ⟨Except.error "404 Not Found", []⟩

/-- Sample member records for the group-members scenario. -/
def mem1 : Record := [("id", "m1")]

def mem2 : Record := [("id", "m2")]

def mem3 : Record := [("id", "m3")]

/-- A service whose group-members response carries a continuation link and has
a further page available, which `get_group_members` must ignore. -/
def envBigGroup : Env := fun _ =>
  ⟨Except.ok ⟨[mem1, mem2], some 120, some "moremembers"⟩,
   [Except.ok ⟨[mem3], none, none⟩]⟩

/-! ## Helper lemmas -/

/-- Dropping a prefix by a predicate no element satisfies is the identity. -/
theorem dropWhile_eq_self_of_none (p : Char → Bool) (l : List Char)
    (h : ∀ c ∈ l, p c = false) : l.dropWhile p = l := by
  cases l with
  | nil => rfl
  | cons a t => simp [List.dropWhile_cons, h a (List.mem_cons_self a t)]

/-- `strip` is the identity on a string with no whitespace characters. -/
theorem pyStrip_eq_self (t : String) (h : ∀ c ∈ t.data, c.isWhitespace = false) :
    pyStrip t = t := by
  unfold pyStrip
  rw [dropWhile_eq_self_of_none _ _ h,
    dropWhile_eq_self_of_none _ _ (fun c hc => h c (List.mem_reverse.mp hc)),
    List.reverse_reverse]

/-- A token flushed from a nonempty whitespace-free accumulator is nonempty
and whitespace-free. -/
theorem mk_reverse_token (acc : List Char) (hE : acc.isEmpty = false)
    (hacc : ∀ c ∈ acc, c.isWhitespace = false) :
    (String.mk acc.reverse).data ≠ [] ∧
      ∀ c ∈ (String.mk acc.reverse).data, c.isWhitespace = false := by
  constructor
  · show acc.reverse ≠ []
    intro hrev
    rw [List.reverse_eq_nil_iff] at hrev
    subst hrev
    simp at hE
  · intro c hc
    exact hacc c (List.mem_reverse.mp hc)

/-- Every token produced by Python `split()` is nonempty and whitespace-free. -/
theorem pySplitAux_tokens (cs : List Char) :
    ∀ acc, (∀ c ∈ acc, c.isWhitespace = false) →
      ∀ t ∈ pySplitAux cs acc, t.data ≠ [] ∧ ∀ c ∈ t.data, c.isWhitespace = false := by
  induction cs with
  | nil =>
    intro acc hacc t ht
    by_cases hE : acc.isEmpty
    · simp [pySplitAux, hE] at ht
    · simp only [pySplitAux, hE, if_false, Bool.false_eq_true, List.mem_singleton] at ht
      subst ht
      exact mk_reverse_token acc (by simpa using hE) hacc
  | cons c cs ih =>
    intro acc hacc t ht
    simp only [pySplitAux] at ht
    by_cases hw : c.isWhitespace = true
    · rw [if_pos hw] at ht
      by_cases hE : acc.isEmpty
      · rw [if_pos hE] at ht
        exact ih [] (by simp) t ht
      · rw [if_neg hE] at ht
        rcases List.mem_cons.mp ht with h1 | h2
        · subst h1
          exact mk_reverse_token acc (by simpa using hE) hacc
        · exact ih [] (by simp) t h2
    · rw [if_neg hw] at ht
      refine ih (c :: acc) ?_ t ht
      intro d hd
      rcases List.mem_cons.mp hd with h1 | h2
      · subst h1
        simpa using hw
      · exact hacc d h2

/-- The `t.strip()` comprehension is the identity on `split()`'s tokens. -/
theorem filterMap_strip_id (L : List String)
    (h : ∀ t ∈ L, t.data ≠ [] ∧ ∀ c ∈ t.data, c.isWhitespace = false) :
    L.filterMap (fun t =>
      let s := pyStrip t
      if s = "" then none else some s) = L := by
  induction L with
  | nil => rfl
  | cons a L ih =>
    have ha := h a (List.mem_cons_self a L)
    have hstrip : pyStrip a = a := pyStrip_eq_self a ha.2
    have hne : a ≠ "" := by
      intro hc
      apply ha.1
      rw [hc]
    rw [List.filterMap_cons]
    simp only [hstrip, if_neg hne]
    rw [ih (fun t ht => h t (List.mem_cons_of_mem a ht))]

/-- The source query builder agrees with the spec-worded one everywhere. -/
theorem build_eq_specModel (raw : String) :
    _build_and_search_query raw = buildSearchExpressionSpecModel raw := by
  have htok := filterMap_strip_id (pySplitWs raw)
    (pySplitAux_tokens raw.data [] (by simp))
  unfold _build_and_search_query buildSearchExpressionSpecModel
  rw [htok]

/-- With no item limit, the collector loop follows a well-formed chain to its
end, appending every page's items in order and fetching once per page. -/
theorem collectLoop_chain (ps : List GraphResponse) :
    ∀ (p : GraphResponse) (items : List Record), chainLinked p ps = true →
      collectLoop none (ps.map Except.ok) items p.odata_nextLink
        = Except.ok (items ++ (ps.map GraphResponse.value).flatten, ps.length) := by
  induction ps with
  | nil =>
    intro p items h
    rw [collectLoop.eq_def]
    cases hx : truthyLink p.odata_nextLink with
    | false => simp [hx]
    | true => simp [chainLinked, hx] at h
  | cons q qs ih =>
    intro p items h
    simp only [chainLinked, Bool.and_eq_true] at h
    rw [collectLoop.eq_def]
    simp only [h.1, underLimit, Bool.and_true, if_true, List.map_cons]
    rw [ih q (items ++ q.value) h.2]
    simp [List.append_assoc]

/-- `_collect_paged` over a well-formed all-ok chain with no limit returns the
concatenation of all pages' items together with the first page's count hint. -/
theorem collect_paged_chain (p : GraphResponse) (ps : List GraphResponse)
    (h : chainLinked p ps = true) :
    collect_paged ⟨Except.ok p, ps.map Except.ok⟩ none
      = Except.ok ⟨p.value ++ (ps.map GraphResponse.value).flatten, p.odata_count⟩ := by
  simp only [collect_paged]
  rw [collectLoop_chain ps p p.value h]

/-! ## Claim theorems -/

/-- C1: for every query and limit, when the primary `$search` paged fetch
inside `search_users` (or `search_groups`) raises any exception, the operation
retries exactly once with the `startswith` `$filter` fallback — the same
limit, select list and `ConsistencyLevel: eventual` header, as the unfolded
request tuples show — and returns that fallback's result; when the fallback
also raises, its exception propagates with no further attempt. -/
theorem C1_search_fallback_once (env : Env) (q : String) (lim : Nat) :
    (usersSearchRequest q lim = ⟨"/users",
        [("$search", _build_and_search_query (pySanitize q)), ("$count", "true"),
         ("$top", toString lim), ("$select", userSelectList)],
        [("ConsistencyLevel", "eventual")]⟩)
  ∧ (usersFilterRequest q lim = ⟨"/users",
        [("$filter", usersStartswithFilterExpr (pySanitize q)), ("$count", "true"),
         ("$top", toString lim), ("$select", userSelectList)],
        [("ConsistencyLevel", "eventual")]⟩)
  ∧ (∀ e page, collect_paged (env (usersSearchRequest q lim)) (some lim) = Except.error e →
       collect_paged (env (usersFilterRequest q lim)) (some lim) = Except.ok page →
       search_users env q lim = Except.ok ⟨page.value, page.count⟩)
  ∧ (∀ e e2, collect_paged (env (usersSearchRequest q lim)) (some lim) = Except.error e →
       collect_paged (env (usersFilterRequest q lim)) (some lim) = Except.error e2 →
       search_users env q lim = Except.error e2)
  ∧ (groupsSearchRequest q lim = ⟨"/groups",
        [("$search", _build_and_search_query (pySanitize q)), ("$count", "true"),
         ("$top", toString lim), ("$select", groupSelectList)],
        [("ConsistencyLevel", "eventual")]⟩)
  ∧ (groupsFilterRequest q lim = ⟨"/groups",
        [("$filter", groupsStartswithFilterExpr (pySanitize q)), ("$count", "true"),
         ("$top", toString lim), ("$select", groupSelectList)],
        [("ConsistencyLevel", "eventual")]⟩)
  ∧ (∀ e page, collect_paged (env (groupsSearchRequest q lim)) (some lim) = Except.error e →
       collect_paged (env (groupsFilterRequest q lim)) (some lim) = Except.ok page →
       search_groups env q lim = Except.ok ⟨page.value, page.count⟩)
  ∧ (∀ e e2, collect_paged (env (groupsSearchRequest q lim)) (some lim) = Except.error e →
       collect_paged (env (groupsFilterRequest q lim)) (some lim) = Except.error e2 →
       search_groups env q lim = Except.error e2) := by
  refine ⟨rfl, rfl, ?_, ?_, rfl, rfl, ?_, ?_⟩
  · intro e page h1 h2
    simp [search_users, h1, h2]
  · intro e e2 h1 h2
    simp [search_users, h1, h2]
  · intro e page h1 h2
    simp [search_groups, h1, h2]
  · intro e e2 h1 h2
    simp [search_groups, h1, h2]

/-- Witness for C1: on a service rejecting `$search`, `search_users` returns
the `$filter` fallback's result. -/
theorem C1_search_fallback_once_witness :
    collect_paged (envFallbackOk (usersSearchRequest "john doe" 10)) (some 10)
      = Except.error "Request_UnsupportedQuery"
  ∧ collect_paged (envFallbackOk (usersFilterRequest "john doe" 10)) (some 10)
      = Except.ok ⟨[rec1], some 1⟩
  ∧ search_users envFallbackOk "john doe" 10 = Except.ok ⟨[rec1], some 1⟩ := by
  refine ⟨by decide, by decide, ?_⟩
  exact (C1_search_fallback_once envFallbackOk "john doe" 10).2.2.1
    "Request_UnsupportedQuery" ⟨[rec1], some 1⟩ (by decide) (by decide)

/-- C2: the pagination collector fetches the first page, fetches a
continuation page only while a truthy continuation link exists AND the
accumulation is strictly under the limit, truncates overshoot to exactly the
limit, and with no limit follows the whole chain returning all items in
service order.  In the [3,3,3] scenario with limit 5 it performs exactly one
continuation fetch (pages 1 and 2; never page 3) and returns exactly 5
items. -/
theorem C2_pagination_collector :
    (collect_paged traceC2 (some 5) = Except.ok ⟨[rec1, rec2, rec3, rec4, rec5], some 9⟩)
  ∧ (collectLoop (some 5) traceC2.rest pageA.value pageA.odata_nextLink
       = Except.ok ([rec1, rec2, rec3, rec4, rec5, rec6], 1))
  ∧ (∀ itemLimit rest items nl, truthyLink nl = false →
       collectLoop itemLimit rest items nl = Except.ok (items, 0))
  ∧ (∀ n rest items nl, ¬ items.length < n →
       collectLoop (some n) rest items nl = Except.ok (items, 0))
  ∧ (∀ p ps items, chainLinked p ps = true →
       collectLoop none (ps.map Except.ok) items p.odata_nextLink
         = Except.ok (items ++ (ps.map GraphResponse.value).flatten, ps.length))
  ∧ (∀ p ps, chainLinked p ps = true →
       collect_paged ⟨Except.ok p, ps.map Except.ok⟩ none
         = Except.ok ⟨p.value ++ (ps.map GraphResponse.value).flatten, p.odata_count⟩)
  ∧ (∀ t n fp pr, t.first = Except.ok fp →
       collectLoop (some n) t.rest fp.value fp.odata_nextLink = Except.ok pr →
       pr.1.length > n →
       collect_paged t (some n) = Except.ok ⟨pr.1.take n, fp.odata_count⟩
         ∧ (pr.1.take n).length = n) := by
  refine ⟨by decide, by decide, ?_, ?_, ?_, ?_, ?_⟩
  · intro itemLimit rest items nl h
    rw [collectLoop.eq_def]
    simp [h]
  · intro n rest items nl h
    rw [collectLoop.eq_def]
    simp [underLimit, h]
  · intro p ps items h
    exact collectLoop_chain ps p items h
  · intro p ps h
    exact collect_paged_chain p ps h
  · intro t n fp pr h1 h2 h3
    refine ⟨?_, ?_⟩
    · simp [collect_paged, h1, h2, h3]
    · rw [List.length_take]
      omega

/-- Witness for C2: the same three pages with no limit set are all followed
and all nine items come back untruncated, in order. -/
theorem C2_pagination_collector_witness :
    chainLinked pageA [pageB, pageC] = true
  ∧ collect_paged ⟨Except.ok pageA, [Except.ok pageB, Except.ok pageC]⟩ none
      = Except.ok ⟨[rec1, rec2, rec3, rec4, rec5, rec6, rec7, rec8, rec9], some 9⟩ := by
  refine ⟨by decide, ?_⟩
  have h := C2_pagination_collector.2.2.2.2.2.1 pageA [pageB, pageC] (by decide)
  exact h.trans (by decide)

/-- C5: any fetch failure inside the pagination collector propagates
immediately as that same exception; the accumulation from earlier pages is
discarded and no partial result object is returned (the outcome is
`Except.error`, carrying no items). -/
theorem C5_collector_failure_propagation :
    (∀ t l e, t.first = Except.error e → collect_paged t l = Except.error e)
  ∧ (∀ l rest items nl e, truthyLink nl = true → underLimit l items.length = true →
       collectLoop l (Except.error e :: rest) items nl = Except.error e)
  ∧ (∀ fp rest e n, truthyLink fp.odata_nextLink = true → fp.value.length < n →
       collect_paged ⟨Except.ok fp, Except.error e :: rest⟩ (some n) = Except.error e) := by
  refine ⟨?_, ?_, ?_⟩
  · intro t l e h
    simp [collect_paged, h]
  · intro l rest items nl e h1 h2
    rw [collectLoop.eq_def]
    simp [h1, h2]
  · intro fp rest e n h1 h2
    have hloop : collectLoop (some n) (Except.error e :: rest) fp.value fp.odata_nextLink
        = Except.error e := by
      rw [collectLoop.eq_def]
      simp [h1, underLimit, h2]
    simp [collect_paged, hloop]

/-- Witness for C5: a failing second-page fetch after a successful first page
yields the error, with page 1's three items discarded. -/
theorem C5_collector_failure_propagation_witness :
    truthyLink pageA.odata_nextLink = true
  ∧ pageA.value.length < 5
  ∧ collect_paged ⟨Except.ok pageA, [Except.error "boom"]⟩ (some 5) = Except.error "boom" := by
  refine ⟨by decide, by decide, ?_⟩
  exact C5_collector_failure_propagation.2.2 pageA [] "boom" 5 (by decide) (by decide)

/-- C3 (code bug): when the first page carries a count hint, the returned
total count equals the hint; but when the service reports NO hint, the claimed
items-collected fallback never happens — `_collect_paged`'s result always
contains the `count` key (as `None`), so `page.get("count", len(users))`
returns `None` and `search_users` reports a null `total_count` (here `none`
instead of the claimed `some 2`), contradicting the method's own docstring
`total_count (int)`. -/
theorem C3_total_count_null_when_no_hint :
    (search_users envCountHint "alice" 10 = Except.ok ⟨[rec1], some 25⟩)
  ∧ (search_users envNoCountHint "alice" 10 = Except.ok ⟨[rec1, rec2], none⟩)
  ∧ ((Except.ok ⟨[rec1, rec2], none⟩ : Except Err UsersResult)
       ≠ (Except.ok ⟨[rec1, rec2], some 2⟩ : Except Err UsersResult)) := by
  exact ⟨by decide, by decide, by decide⟩

/-- C4: `buildSearchExpression` splits on whitespace dropping empty tokens,
returns the trimmed input in one pair of quotes when no token remains, and
otherwise quotes each token (escaping internal `"` as `\"`) joined by the
literal `" AND "`; it never raises (it is a total function).  The source
definition agrees with the spec-worded model on every input, and the spec's
examples hold. -/
theorem C4_build_search_expression (raw : String) :
    _build_and_search_query raw = buildSearchExpressionSpecModel raw
  ∧ _build_and_search_query "john doe" = "\"john\" AND \"doe\""
  ∧ _build_and_search_query "  " = "\"\""
  ∧ _build_and_search_query "a\"b c" = "\"a\\\"b\" AND \"c\"" := by
  exact ⟨build_eq_specModel raw, by decide, by decide, by decide⟩

/-- C6 (code bug): the tool boundary always returns a string and converts any
exception reaching it to `"Error searching users: <message>"`; but on a
successful client call whose first page carried no `@odata.count` hint the
reported count is `None`, `int(None)` raises `TypeError` inside the `try`,
and the tool returns the error string instead of the claimed JSON envelope —
the success/JSON dichotomy of the claim fails exactly there, while the
hint-present success path does serialize the envelope and a client failure
does produce the plain error string. -/
theorem C6_tool_error_string_boundary :
    (search_users envNoCountHint "alice" 10 = Except.ok ⟨[rec1, rec2], none⟩)
  ∧ (search_entra_users envNoCountHint "alice" 10
       = "Error searching users: " ++ intNoneTypeErrMsg)
  ∧ (search_entra_users envAllFail "alice" 10 = "Error searching users: boom")
  ∧ (search_entra_users envCountHint "alice" 10 = usersEnvelopeJson "alice" 25 [rec1]) := by
  exact ⟨by decide, by decide, by decide, by decide⟩

/-- C7: `resolveUserId` returns `none` — it never raises, being a total
function into `Option` — whenever the direct path-segment lookup fails with an
exception and the mail-equality lookup either fails with an exception or
returns no matching record. -/
theorem C7_resolve_returns_none_on_double_miss (env : Env) (identifier : String) (e : Err)
    (h1 : (env (directUserRequest identifier)).first = Except.error e)
    (h2 : ∀ p, (env (mailFilterRequest identifier)).first = Except.ok p → p.value = []) :
    _resolve_user_id env identifier = none := by
  unfold _resolve_user_id
  rw [h1]
  cases hm : (env (mailFilterRequest identifier)).first with
  | error f => rfl
  | ok res => simp [h2 res hm]

/-- Witness for C7: with both lookups failing by exception, resolution is a
silent miss. -/
theorem C7_resolve_returns_none_on_double_miss_witness :
    (envBothFail (directUserRequest "ghost@co.com")).first = Except.error "404 Not Found"
  ∧ _resolve_user_id envBothFail "ghost@co.com" = none := by
  refine ⟨by decide, ?_⟩
  exact C7_resolve_returns_none_on_double_miss envBothFail "ghost@co.com" "404 Not Found"
    (by decide) (fun p hp => by simp [envBothFail] at hp)

/-- C8 counterexample: the claim says the raw identifier is used ONLY when
resolution returns `None`, but Python's `resolved or user_identifier` also
falls through on the empty string: on a service resolving `jane@co.com` to the
id `""`, resolution returns `some ""` (not `none`), yet the membership call
targets `/users/jane@co.com/memberOf` (the raw identifier) and not the
resolved id's endpoint `/users//memberOf`, whose result differs. -/
theorem C8_empty_id_uses_raw_identifier :
    _resolve_user_id envEmptyIdResolve "jane@co.com" = some ""
  ∧ get_user_membership envEmptyIdResolve "jane@co.com" none = Except.ok [gViaRaw]
  ∧ Except.map PagedDict.value (collect_paged (envEmptyIdResolve (memberOfRequest "")) none)
      = Except.ok [gViaEmpty]
  ∧ get_user_membership envEmptyIdResolve "jane@co.com" none
      ≠ Except.map PagedDict.value
          (collect_paged (envEmptyIdResolve (memberOfRequest "")) none) := by
  exact ⟨by decide, by decide, by decide, by decide⟩

/-- C8 (amended): `getUserMembership` resolves the identifier first and uses
the raw identifier exactly when resolution returns `None` OR the empty string
(Python falsiness of `resolved or user_identifier`); it then paginates
`/users/<id>/memberOf` for the chosen id with the `ConsistencyLevel: eventual`
header, fixed page size 50 and the optional overall limit, so a non-empty
resolved id (e.g. `u42` for `jane@co.com`) is the one whose membership
relation is queried. -/
theorem C8_membership_targets_resolved_id (env : Env) (user_identifier : String)
    (limit : Option Nat) :
    (get_user_membership env user_identifier limit =
       match collect_paged
           (env (memberOfRequest
             (pyOrStr (_resolve_user_id env user_identifier) user_identifier)))
           limit with
       | Except.ok page => Except.ok page.value
       | Except.error e => Except.error e)
  ∧ (∀ uid, memberOfRequest uid =
       ⟨"/users/" ++ uid ++ "/memberOf",
        [("$select", groupSelectList), ("$count", "true"), ("$top", toString 50)],
        [("ConsistencyLevel", "eventual")]⟩)
  ∧ (_resolve_user_id env user_identifier = none →
       pyOrStr (_resolve_user_id env user_identifier) user_identifier = user_identifier)
  ∧ (_resolve_user_id env user_identifier = some "" →
       pyOrStr (_resolve_user_id env user_identifier) user_identifier = user_identifier)
  ∧ (∀ s, _resolve_user_id env user_identifier = some s → s ≠ "" →
       pyOrStr (_resolve_user_id env user_identifier) user_identifier = s) := by
  refine ⟨rfl, fun uid => rfl, ?_, ?_, ?_⟩
  · intro h
    rw [h]
    rfl
  · intro h
    rw [h]
    rfl
  · intro s h hs
    rw [h]
    simp [pyOrStr, hs]

/-- Witness for C8 (amended): the spec's end-to-end scenario — direct lookup
of `jane@co.com` fails, the mail filter resolves to `u42`, and the membership
query targets `/users/u42/memberOf`, returning its group. -/
theorem C8_membership_targets_resolved_id_witness :
    _resolve_user_id envJane "jane@co.com" = some "u42"
  ∧ pyOrStr (_resolve_user_id envJane "jane@co.com") "jane@co.com" = "u42"
  ∧ get_user_membership envJane "jane@co.com" none = Except.ok [gU42] := by
  refine ⟨by decide, ?_, ?_⟩
  · exact (C8_membership_targets_resolved_id envJane "jane@co.com" none).2.2.2.2 "u42"
      (by decide) (by decide)
  · have h := (C8_membership_targets_resolved_id envJane "jane@co.com" none).1
    exact h.trans (by decide)

/-- C9: `getGroupMembers` issues exactly one request, whose params set `$top`
to the limit (and nothing else besides the select list — no `$count`, no
pagination machinery), and returns that single page's `value` list verbatim:
the result is determined by the first response alone, for EVERY response page
`p`, including pages carrying a continuation link. -/
theorem C9_group_members_single_request (env : Env) (group_id : String) (limit : Nat) :
    (groupMembersRequest group_id limit =
       ⟨"/groups/" ++ group_id ++ "/members",
        [("$top", toString limit), ("$select", memberSelectList)], []⟩)
  ∧ (∀ p, (env (groupMembersRequest group_id limit)).first = Except.ok p →
       get_group_members env group_id limit = Except.ok p.value)
  ∧ (∀ e, (env (groupMembersRequest group_id limit)).first = Except.error e →
       get_group_members env group_id limit = Except.error e) := by
  refine ⟨rfl, ?_, ?_⟩
  · intro p h
    simp [get_group_members, h]
  · intro e h
    simp [get_group_members, h]

/-- Witness for C9: the response carries a continuation link and a further
page is available in the trace, yet only the first page's two members are
returned. -/
theorem C9_group_members_single_request_witness :
    (envBigGroup (groupMembersRequest "g1" 50)).first
      = Except.ok ⟨[mem1, mem2], some 120, some "moremembers"⟩
  ∧ get_group_members envBigGroup "g1" 50 = Except.ok [mem1, mem2] := by
  refine ⟨by decide, ?_⟩
  exact (C9_group_members_single_request envBigGroup "g1" 50).2.1
    ⟨[mem1, mem2], some 120, some "moremembers"⟩ (by decide)

/-- C10: whenever the direct path-segment lookup succeeds, `resolveUserId`
returns the INPUT identifier verbatim — not the canonical object id carried by
the fetched record — for every environment, identifier and fetched record. -/
theorem C10_resolve_direct_hit_returns_input (env : Env) (identifier : String)
    (p : GraphResponse) (h : (env (directUserRequest identifier)).first = Except.ok p) :
    _resolve_user_id env identifier = some identifier := by
  unfold _resolve_user_id
  rw [h]

/-- Witness for C10: the direct lookup of a user principal name succeeds with
a record whose canonical id differs, and resolution still returns the UPN. -/
theorem C10_resolve_direct_hit_returns_input_witness :
    (envDirectHit (directUserRequest "john.doe@co.com")).first
      = Except.ok ⟨[[("id", "11111111-2222")]], none, none⟩
  ∧ _resolve_user_id envDirectHit "john.doe@co.com" = some "john.doe@co.com"
  ∧ "john.doe@co.com" ≠ "11111111-2222" := by
  refine ⟨by decide, ?_, by decide⟩
  exact C10_resolve_direct_hit_returns_input envDirectHit "john.doe@co.com"
    ⟨[[("id", "11111111-2222")]], none, none⟩ (by decide)

end EntraMCP
